import Mathlib

/-!
Shallow embedding of the satellite-telemetry CRUD service
(`app/routers/telemetry.py`, `app/db/models.py`).

Records live in a relational table; we model the table as a list of rows in
insertion order together with the id counter.  Datetimes are modelled as
integers (e.g. epoch microseconds); `altitude`/`velocity` are modelled as
rationals (only order comparisons with 0 matter to the contract).
-/

namespace Telemetry

/-- `TelemetryStatus` enum from `app/db/models.py`: `healthy` | `critical`. -/
inductive TelemetryStatus where
  | healthy
  | critical
deriving DecidableEq, Repr

/-- A persisted `Telemetry` row (`app/db/models.py`, class `Telemetry`). -/
structure Row where
  id : Nat
  satelliteId : String
  timestamp : Int
  altitude : ℚ
  velocity : ℚ
  status : TelemetryStatus
  created : Int
  updated : Int
deriving DecidableEq, Repr

/-- The payload of `POST /telemetry` (`TelemetryCreate` pydantic model).
`timestamp` and `status` are already well-typed here because pydantic's type
coercion rejects unparseable datetimes and unknown enum literals before the
field constraints run; the remaining constraints are checked by
`validationErrors` below. -/
structure TelemetryCreate where
  satelliteId : String
  timestamp : Int
  altitude : ℚ
  velocity : ℚ
  status : TelemetryStatus
deriving DecidableEq, Repr

/-- Names of the payload fields, used for structured validation errors. -/
inductive FieldName where
  | satelliteId
  | timestamp
  | altitude
  | velocity
  | status
deriving DecidableEq, Repr

/-- The pydantic field constraints of `TelemetryCreate`
(`app/routers/telemetry.py` lines 16-23): `satelliteId` has `max_length=64`,
`altitude` and `velocity` have `gt=0`.  Returns the list of offending fields,
empty when the payload is valid. -/
def validationErrors (p : TelemetryCreate) : List FieldName :=
  (if 64 < p.satelliteId.length then [FieldName.satelliteId] else []) ++
  (if p.altitude ≤ 0 then [FieldName.altitude] else []) ++
  (if p.velocity ≤ 0 then [FieldName.velocity] else [])

/-- The database: `telemetry` table rows in insertion order. -/
structure DB where
  rows : List Row
deriving DecidableEq, Repr

/-- The empty database (state right after `init_db`). -/
def DB.empty : DB := ⟨[]⟩

/-- Well-formedness maintained by the storage engine: primary-key ids are
pairwise distinct. -/
def DB.wf (db : DB) : Prop := (db.rows.map Row.id).Nodup

/-- The integer primary key assigned by the store on insert: one more than the
largest id in the table (SQLite rowid assignment). -/
def freshId (rows : List Row) : Nat :=
  (rows.foldr (fun r m => max r.id m) 0) + 1

/-- The storage-layer `CheckConstraint`s of `app/db/models.py`
(`__table_args__`): `length(satelliteId) <= 64`, `altitude >= 0`,
`velocity >= 0`, together with the `String(64)` column length. -/
def storageConstraintsOk (r : Row) : Bool :=
  r.satelliteId.length ≤ 64 && 0 ≤ r.altitude && 0 ≤ r.velocity

/-- `POST /telemetry` (`create_telemetry` plus the pydantic validation that
FastAPI runs before the handler).  On a valid payload the handler builds a
`Telemetry` row from the payload, the store assigns `id` and the
`datetime.utcnow` column defaults fill `created` and `updated` with the
insert-time clock value `now`; the row is committed and returned.  On an
invalid payload FastAPI answers 422 with the offending fields and the handler
never runs. -/
def post_telemetry (p : TelemetryCreate) (now : Int) (db : DB) :
    Except (List FieldName) Row × DB :=
  match validationErrors p with
  | [] =>
    let r : Row :=
      { id := freshId db.rows
        satelliteId := p.satelliteId
        timestamp := p.timestamp
        altitude := p.altitude
        velocity := p.velocity
        status := p.status
        created := now
        updated := now }
    (Except.ok r, ⟨db.rows ++ [r]⟩)
  | errs => (Except.error errs, db)

/-- `GET /telemetry/{id}` (`get_telemetry`): `first()` on the rows whose id
matches; 404 when none does. -/
def get_telemetry (id : Nat) (db : DB) : Except Nat Row :=
  match db.rows.find? (fun r => r.id == id) with
  | some t => Except.ok t
  | none => Except.error 404

/-- Python truthiness of the optional `satelliteId` query parameter: `None`
and the empty string are both falsy in `if satelliteId and status:`. -/
def strTruthy : Option String → Bool
  | none => false
  | some s => s ≠ ""

/-- The filter composition of `list_satellites`
(`app/routers/telemetry.py` lines 99-106), including the Python truthiness of
the guards: a present `status` enum value is always truthy, while a present
but empty `satelliteId` string is falsy and therefore applies no filter. -/
def applyFilters (sid : Option String) (st : Option TelemetryStatus)
    (rows : List Row) : List Row :=
  if strTruthy sid ∧ st.isSome then
    rows.filter (fun r =>
      Option.some r.satelliteId == sid && Option.some r.status == st)
  else if strTruthy sid then
    rows.filter (fun r => Option.some r.satelliteId == sid)
  else if st.isSome then
    rows.filter (fun r => Option.some r.status == st)
  else
    rows

/-- `ORDER BY timestamp DESC`: row `a` may precede row `b` exactly when
`b.timestamp ≤ a.timestamp`. -/
def tsDesc (a b : Row) : Prop := b.timestamp ≤ a.timestamp

instance : DecidableRel tsDesc := fun a b =>
  inferInstanceAs (Decidable (b.timestamp ≤ a.timestamp))

instance : IsTotal Row tsDesc :=
  ⟨fun a b => (Int.le_total a.timestamp b.timestamp).symm⟩

instance : IsTrans Row tsDesc :=
  ⟨fun _ _ _ hab hbc => le_trans hbc hab⟩

/-- The ordered, filtered result sequence of `GET /telemetry` before
pagination: the matching rows sorted by `timestamp` descending, ties kept in
insertion order (the deterministic order the store produces for a fixed,
unchanged table). -/
def resultSeq (sid : Option String) (st : Option TelemetryStatus) (db : DB) :
    List Row :=
  List.insertionSort tsDesc (applyFilters sid st db.rows)

/-- Pagination parameters of `fastapi_pagination.Params`: `page ≥ 1`
(default 1) and `1 ≤ size ≤ 100` (default 50); out-of-bounds values are
rejected at the boundary with a validation error. -/
structure PageParams where
  page : Nat
  size : Nat
deriving DecidableEq, Repr

/-- The bounds `fastapi_pagination.Params` enforces on `page` and `size`. -/
def PageParams.valid (p : PageParams) : Bool :=
  1 ≤ p.page && 1 ≤ p.size && p.size ≤ 100

/-- The `Page` response of `fastapi_pagination`. -/
structure PageResult where
  items : List Row
  total : Nat
  page : Nat
  size : Nat
deriving DecidableEq, Repr

/-- `fastapi_pagination.ext.sqlalchemy.paginate`: `total` is the count of the
whole query, `items` is `offset((page-1)*size).limit(size)`, and `page`/`size`
are echoed back. -/
def paginateSeq (seq : List Row) (p : PageParams) : PageResult :=
  { items := (seq.drop ((p.page - 1) * p.size)).take p.size
    total := seq.length
    page := p.page
    size := p.size }

/-- `GET /telemetry` (`list_satellites`): filter, order by `timestamp`
descending, paginate. -/
def list_satellites (sid : Option String) (st : Option TelemetryStatus)
    (p : PageParams) (db : DB) : PageResult :=
  paginateSeq (resultSeq sid st db) p

/-- The `DELETE /telemetry/{id}` success body. -/
structure DeleteResponse where
  id : Nat
  message : String
deriving DecidableEq, Repr

/-- `DELETE /telemetry/{id}` (`delete_telemetry`): bulk-delete the rows whose
id matches, commit, then 404 if the deleted-row count was 0, else return the
id with a success message. -/
def delete_telemetry (id : Nat) (db : DB) : Except Nat DeleteResponse × DB :=
  let rows_deleted := db.rows.countP (fun r => r.id == id)
  let db2 : DB := ⟨db.rows.filter (fun r => r.id != id)⟩
  if rows_deleted == 0 then
    (Except.error 404, db2)
  else
    (Except.ok ⟨id, "Telemetry record deleted successfully"⟩, db2)

end Telemetry

namespace Telemetry

/-! ### Helper lemmas about the validation layer -/

theorem altitude_mem_validationErrors (p : TelemetryCreate) :
    FieldName.altitude ∈ validationErrors p ↔ p.altitude ≤ 0 := by
  unfold validationErrors
  split_ifs <;> simp_all

theorem velocity_mem_validationErrors (p : TelemetryCreate) :
    FieldName.velocity ∈ validationErrors p ↔ p.velocity ≤ 0 := by
  unfold validationErrors
  split_ifs <;> simp_all

theorem satelliteId_mem_validationErrors (p : TelemetryCreate) :
    FieldName.satelliteId ∈ validationErrors p ↔ 64 < p.satelliteId.length := by
  unfold validationErrors
  split_ifs <;> simp_all

theorem validationErrors_eq_nil_iff (p : TelemetryCreate) :
    validationErrors p = [] ↔
      p.satelliteId.length ≤ 64 ∧ 0 < p.altitude ∧ 0 < p.velocity := by
  unfold validationErrors
  split_ifs <;> simp_all

/-- **C10.** Passing `satelliteId=""` to `GET /telemetry` behaves exactly like
omitting the parameter: the empty string is falsy in the Python guards
`if satelliteId and status:` / `elif satelliteId:`, so no `satelliteId` filter
is applied and the response is identical to the unfiltered (or status-only
filtered) one. -/
theorem empty_satelliteId_no_filter (st : Option TelemetryStatus)
    (p : PageParams) (db : DB) :
    list_satellites (some "") st p db = list_satellites none st p db := by
  simp [list_satellites, resultSeq, applyFilters, strTruthy]

/-- **C7.** The storage-layer constraints do *not* reject zero measurements:
the row with `altitude = 0` and `velocity = 0` satisfies every
`CheckConstraint` of `app/db/models.py` (they are written `altitude >= 0` /
`velocity >= 0`, although named `check_altitude_positive` /
`check_velocity_positive`), so the storage layer alone does not enforce
strict positivity claimed by the spec. -/
theorem storage_accepts_zero_measures :
    storageConstraintsOk
      { id := 1, satelliteId := "SAT-001", timestamp := 0, altitude := 0,
        velocity := 0, status := TelemetryStatus.healthy,
        created := 0, updated := 0 } = true := by
  rfl

/-- **C6 counterexample.** The claim says an empty `satelliteId` is rejected
with a validation error; in fact the pydantic model only has `max_length=64`
(no `min_length`), so the empty string passes validation and the record is
persisted. -/
theorem empty_satelliteId_accepted_cex :
    validationErrors
      { satelliteId := "", timestamp := 0, altitude := 1, velocity := 1,
        status := TelemetryStatus.healthy } = [] ∧
    (post_telemetry
      { satelliteId := "", timestamp := 0, altitude := 1, velocity := 1,
        status := TelemetryStatus.healthy } 0 DB.empty).2.rows.length = 1 := by
  constructor <;> rfl

/-- **C6 amended.** With the other fields valid, `create` accepts the payload
exactly when `satelliteId` has length at most 64: a 64-character id is
accepted, a 65-character id is rejected with a validation error, and the
empty string is accepted as well (no minimum length is enforced). -/
theorem satelliteId_accept_iff_le64 (p : TelemetryCreate) (now : Int) (db : DB)
    (ha : 0 < p.altitude) (hv : 0 < p.velocity) :
    (∃ r, (post_telemetry p now db).1 = Except.ok r) ↔
      p.satelliteId.length ≤ 64 := by
  by_cases h : 64 < p.satelliteId.length
  · have hne : FieldName.satelliteId ∈ validationErrors p :=
      (satelliteId_mem_validationErrors p).mpr h
    cases hv' : validationErrors p with
    | nil => rw [hv'] at hne; simp at hne
    | cons e es =>
      simp only [post_telemetry, hv']
      constructor
      · rintro ⟨r, hr⟩; simp at hr
      · intro hle; omega
  · have hnil : validationErrors p = [] :=
      (validationErrors_eq_nil_iff p).mpr ⟨le_of_not_lt h, ha, hv⟩
    simp only [post_telemetry, hnil]
    constructor
    · intro _; exact le_of_not_lt h
    · intro _; exact ⟨_, rfl⟩

/-- **C6 amended, witness.** Instantiated at a 64-character `satelliteId`. -/
theorem satelliteId_accept_iff_le64_witness :
    (0 : ℚ) < 550 ∧ (0 : ℚ) < 8 ∧
    ((∃ r, (post_telemetry
        { satelliteId := String.mk (List.replicate 64 'S'), timestamp := 0,
          altitude := 550, velocity := 8,
          status := TelemetryStatus.healthy } 5 DB.empty).1 = Except.ok r) ↔
      (String.mk (List.replicate 64 'S')).length ≤ 64) :=
  ⟨by norm_num, by norm_num,
    satelliteId_accept_iff_le64 _ 5 DB.empty (by norm_num) (by norm_num)⟩

/-- **C5.** Any payload with `altitude ≤ 0` or `velocity ≤ 0` (zero and
negative alike) is rejected by the validation layer with a structured error
naming the offending measurement field, and the database is unchanged — in
particular the row count is unchanged. -/
theorem invalid_measure_rejected_no_persist (p : TelemetryCreate) (now : Int)
    (db : DB) (h : p.altitude ≤ 0 ∨ p.velocity ≤ 0) :
    (∃ errs, (post_telemetry p now db).1 = Except.error errs ∧
       (FieldName.altitude ∈ errs ∨ FieldName.velocity ∈ errs)) ∧
    (post_telemetry p now db).2 = db ∧
    (post_telemetry p now db).2.rows.length = db.rows.length := by
  have hmem : FieldName.altitude ∈ validationErrors p ∨
      FieldName.velocity ∈ validationErrors p := by
    rcases h with h | h
    · exact Or.inl ((altitude_mem_validationErrors p).mpr h)
    · exact Or.inr ((velocity_mem_validationErrors p).mpr h)
  cases hv : validationErrors p with
  | nil =>
    rw [hv] at hmem
    rcases hmem with h' | h' <;> simp at h'
  | cons e es =>
    rw [hv] at hmem
    refine ⟨⟨e :: es, ?_, hmem⟩, ?_, ?_⟩ <;> simp [post_telemetry, hv]

/-- **C5 witness.** Instantiated at a payload with `altitude = 0`. -/
theorem invalid_measure_rejected_no_persist_witness :
    ((0 : ℚ) ≤ 0 ∨ (8 : ℚ) ≤ 0) ∧
    ((∃ errs, (post_telemetry
        { satelliteId := "SAT-001", timestamp := 0, altitude := 0,
          velocity := 8, status := TelemetryStatus.healthy } 5 DB.empty).1 =
          Except.error errs ∧
       (FieldName.altitude ∈ errs ∨ FieldName.velocity ∈ errs)) ∧
     (post_telemetry
        { satelliteId := "SAT-001", timestamp := 0, altitude := 0,
          velocity := 8, status := TelemetryStatus.healthy } 5 DB.empty).2 =
        DB.empty ∧
     (post_telemetry
        { satelliteId := "SAT-001", timestamp := 0, altitude := 0,
          velocity := 8, status := TelemetryStatus.healthy } 5 DB.empty).2.rows.length =
        DB.empty.rows.length) :=
  ⟨Or.inl le_rfl,
    invalid_measure_rejected_no_persist _ 5 DB.empty (Or.inl le_rfl)⟩


/-! ### Helper lemmas about the store operations -/

theorem post_telemetry_ok (p : TelemetryCreate) (now : Int) (db : DB)
    (h : validationErrors p = []) :
    post_telemetry p now db =
      (Except.ok
        { id := freshId db.rows, satelliteId := p.satelliteId,
          timestamp := p.timestamp, altitude := p.altitude,
          velocity := p.velocity, status := p.status,
          created := now, updated := now },
       ⟨db.rows ++
        [{ id := freshId db.rows, satelliteId := p.satelliteId,
           timestamp := p.timestamp, altitude := p.altitude,
           velocity := p.velocity, status := p.status,
           created := now, updated := now }]⟩) := by
  unfold post_telemetry
  rw [h]

theorem post_telemetry_error (p : TelemetryCreate) (now : Int) (db : DB)
    (e : FieldName) (es : List FieldName) (h : validationErrors p = e :: es) :
    post_telemetry p now db = (Except.error (e :: es), db) := by
  unfold post_telemetry
  rw [h]

theorem get_telemetry_of_find?_eq_some {id : Nat} {db : DB} {t : Row}
    (h : db.rows.find? (fun r => r.id == id) = some t) :
    get_telemetry id db = Except.ok t := by
  unfold get_telemetry
  rw [h]

theorem get_telemetry_error_iff (id : Nat) (db : DB) :
    get_telemetry id db = Except.error 404 ↔ ∀ r ∈ db.rows, r.id ≠ id := by
  unfold get_telemetry
  cases hf : db.rows.find? (fun r => r.id == id) with
  | some t =>
    have ht : t ∈ db.rows := List.mem_of_find?_eq_some hf
    have hid : t.id = id := by
      have := List.find?_some hf
      simpa using this
    simp only [reduceCtorEq, false_iff, not_forall]
    exact ⟨t, ht, not_not_intro hid⟩
  | none =>
    simp only [true_iff]
    intro r hr
    have := List.find?_eq_none.mp hf r hr
    simpa using this

theorem delete_telemetry_snd (id : Nat) (db : DB) :
    (delete_telemetry id db).2 = ⟨db.rows.filter (fun r => r.id != id)⟩ := by
  unfold delete_telemetry
  dsimp only
  split <;> rfl

theorem id_le_foldr_max (x : Row) (rows : List Row) :
    x ∈ rows → x.id ≤ rows.foldr (fun r m => max r.id m) 0 := by
  induction rows with
  | nil => intro hx; cases hx
  | cons a l ih =>
    intro hx
    rcases List.mem_cons.mp hx with h | h
    · subst h; exact le_max_left _ _
    · exact le_trans (ih h) (le_max_right _ _)

theorem id_lt_freshId (x : Row) (rows : List Row) (hx : x ∈ rows) :
    x.id < freshId rows := by
  have := id_le_foldr_max x rows hx
  unfold freshId
  omega

/-- **C1.** For a payload that passes validation, `POST /telemetry` stores a
record and an immediate `GET /telemetry/{id}` with the assigned id returns
that exact record, equal in every field: `id` and the system timestamps are
returned as stored and `satelliteId`/`timestamp`/`altitude`/`velocity`/
`status` equal the payload's. -/
theorem create_then_getById (p : TelemetryCreate) (now : Int) (db : DB)
    (hvalid : validationErrors p = []) :
    ∃ r db2, post_telemetry p now db = (Except.ok r, db2) ∧
      get_telemetry r.id db2 = Except.ok r ∧
      r.satelliteId = p.satelliteId ∧ r.timestamp = p.timestamp ∧
      r.altitude = p.altitude ∧ r.velocity = p.velocity ∧
      r.status = p.status ∧ r.created = now ∧ r.updated = now := by
  refine ⟨_, _, post_telemetry_ok p now db hvalid, ?_,
    rfl, rfl, rfl, rfl, rfl, rfl, rfl⟩
  apply get_telemetry_of_find?_eq_some
  rw [List.find?_append]
  have hnone : db.rows.find? (fun r => r.id == freshId db.rows) = none := by
    apply List.find?_eq_none.mpr
    intro x hx
    have := id_lt_freshId x db.rows hx
    simp only [beq_iff_eq]
    omega
  rw [hnone]
  simp

/-- **C1 witness.** Instantiated at a concrete valid payload on the empty
database. -/
theorem create_then_getById_witness :
    validationErrors
      { satelliteId := "SAT-001", timestamp := 100, altitude := 550,
        velocity := 8, status := TelemetryStatus.healthy } = [] ∧
    ∃ r db2,
      post_telemetry
        { satelliteId := "SAT-001", timestamp := 100, altitude := 550,
          velocity := 8, status := TelemetryStatus.healthy } 5 DB.empty =
        (Except.ok r, db2) ∧
      get_telemetry r.id db2 = Except.ok r ∧
      r.satelliteId = "SAT-001" ∧ r.timestamp = 100 ∧
      r.altitude = 550 ∧ r.velocity = 8 ∧
      r.status = TelemetryStatus.healthy ∧ r.created = 5 ∧ r.updated = 5 :=
  ⟨rfl, create_then_getById _ 5 DB.empty rfl⟩

/-! ### The write operations exposed by the API -/

/-- A write operation of the exposed API: create or delete.  There is no
update-in-place endpoint. -/
inductive Op where
  | create (p : TelemetryCreate) (now : Int)
  | delete (id : Nat)

/-- Apply one write operation to the database state. -/
def applyOp (db : DB) : Op → DB
  | Op.create p now => (post_telemetry p now db).2
  | Op.delete id => (delete_telemetry id db).2

/-- Run a sequence of write operations starting from the empty database. -/
def runOps (ops : List Op) : DB := ops.foldl applyOp DB.empty

theorem applyOp_preserves_updated_eq_created (db : DB)
    (h : ∀ r ∈ db.rows, r.updated = r.created) (op : Op) :
    ∀ r ∈ (applyOp db op).rows, r.updated = r.created := by
  cases op with
  | create p now =>
    intro r hr
    cases hv : validationErrors p with
    | nil =>
      rw [applyOp, post_telemetry_ok p now db hv] at hr
      rcases List.mem_append.mp hr with h' | h'
      · exact h r h'
      · rcases List.mem_singleton.mp h' with rfl
        rfl
    | cons e es =>
      rw [applyOp, post_telemetry_error p now db e es hv] at hr
      exact h r hr
  | delete id =>
    intro r hr
    rw [applyOp, delete_telemetry_snd] at hr
    exact h r (List.mem_of_mem_filter hr)

theorem foldl_applyOp_preserves (ops : List Op) :
    ∀ db : DB, (∀ r ∈ db.rows, r.updated = r.created) →
      ∀ r ∈ (ops.foldl applyOp db).rows, r.updated = r.created := by
  induction ops with
  | nil => intro db h; simpa using h
  | cons op ops ih =>
    intro db h
    exact ih _ (applyOp_preserves_updated_eq_created db h op)

/-- **C9.** `created` and `updated` are both system-assigned to the
insert-time clock value, and since the API exposes only create and delete (no
update-in-place), every record in any state reachable from the empty database
has `updated = created`. -/
theorem updated_always_equals_created (p : TelemetryCreate) (now : Int)
    (db db2 : DB) (r : Row) (ops : List Op)
    (hpost : post_telemetry p now db = (Except.ok r, db2)) :
    (r.created = now ∧ r.updated = now) ∧
    ∀ x ∈ (runOps ops).rows, x.updated = x.created := by
  refine ⟨?_, foldl_applyOp_preserves ops DB.empty (by intro x hx; cases hx)⟩
  cases hv : validationErrors p with
  | nil =>
    rw [post_telemetry_ok p now db hv] at hpost
    have := congrArg Prod.fst hpost
    simp only [Except.ok.injEq] at this
    rw [← this]
    exact ⟨rfl, rfl⟩
  | cons e es =>
    rw [post_telemetry_error p now db e es hv] at hpost
    have := congrArg Prod.fst hpost
    simp at this

/-- **C9 witness.** Instantiated at a concrete create and a concrete
operation sequence. -/
theorem updated_always_equals_created_witness :
    (post_telemetry
      { satelliteId := "SAT-001", timestamp := 100, altitude := 550,
        velocity := 8, status := TelemetryStatus.healthy } 5 DB.empty =
      (Except.ok
        { id := 1, satelliteId := "SAT-001", timestamp := 100, altitude := 550,
          velocity := 8, status := TelemetryStatus.healthy,
          created := 5, updated := 5 },
       ⟨[{ id := 1, satelliteId := "SAT-001", timestamp := 100,
           altitude := 550, velocity := 8,
           status := TelemetryStatus.healthy, created := 5, updated := 5 }]⟩)) ∧
    (((5 : Int) = 5 ∧ (5 : Int) = 5) ∧
      ∀ x ∈ (runOps
        [Op.create
          { satelliteId := "SAT-001", timestamp := 100, altitude := 550,
            velocity := 8, status := TelemetryStatus.healthy } 5,
         Op.delete 2]).rows, x.updated = x.created) :=
  ⟨rfl,
    updated_always_equals_created
      { satelliteId := "SAT-001", timestamp := 100, altitude := 550,
        velocity := 8, status := TelemetryStatus.healthy } 5 DB.empty
      ⟨[{ id := 1, satelliteId := "SAT-001", timestamp := 100,
          altitude := 550, velocity := 8,
          status := TelemetryStatus.healthy, created := 5, updated := 5 }]⟩
      { id := 1, satelliteId := "SAT-001", timestamp := 100, altitude := 550,
        velocity := 8, status := TelemetryStatus.healthy,
        created := 5, updated := 5 }
      [Op.create
        { satelliteId := "SAT-001", timestamp := 100, altitude := 550,
          velocity := 8, status := TelemetryStatus.healthy } 5,
       Op.delete 2]
      rfl⟩


/-! ### Query engine: filter semantics -/

theorem mem_resultSeq_iff (sid : Option String) (st : Option TelemetryStatus)
    (db : DB) (r : Row) :
    r ∈ resultSeq sid st db ↔ r ∈ applyFilters sid st db.rows :=
  (List.perm_insertionSort tsDesc _).mem_iff

/-- **C3.** Filters compose with AND semantics: with a (non-empty)
`satelliteId` filter and a `status` filter, the result sequence contains
exactly the records matching both (intersection, never union); with a single
filter, exactly the records matching it; with no filters, all records. -/
theorem filter_and_semantics (sid : String) (st : TelemetryStatus) (db : DB)
    (r : Row) (hsid : sid ≠ "") :
    (r ∈ resultSeq (some sid) (some st) db ↔
      r ∈ db.rows ∧ r.satelliteId = sid ∧ r.status = st) ∧
    (r ∈ resultSeq (some sid) none db ↔ r ∈ db.rows ∧ r.satelliteId = sid) ∧
    (r ∈ resultSeq none (some st) db ↔ r ∈ db.rows ∧ r.status = st) ∧
    (r ∈ resultSeq none none db ↔ r ∈ db.rows) := by
  refine ⟨?_, ?_, ?_, ?_⟩ <;>
    rw [mem_resultSeq_iff] <;>
    simp [applyFilters, strTruthy, hsid, List.mem_filter, and_assoc]

/-- Concrete example rows for witnesses. -/
def exRow1 : Row :=
  { id := 1, satelliteId := "SAT-001", timestamp := 100, altitude := 550,
    velocity := 8, status := TelemetryStatus.healthy, created := 5,
    updated := 5 }

def exRow2 : Row :=
  { id := 2, satelliteId := "SAT-002", timestamp := 200, altitude := 20200,
    velocity := 4, status := TelemetryStatus.critical, created := 6,
    updated := 6 }

def exRow3 : Row :=
  { id := 3, satelliteId := "SAT-001", timestamp := 150, altitude := 600,
    velocity := 8, status := TelemetryStatus.critical, created := 7,
    updated := 7 }

/-- A concrete example table for witnesses. -/
def exDB : DB := ⟨[exRow1, exRow2, exRow3]⟩

/-- **C3 witness.** Instantiated at a table with two records sharing a
`satelliteId` but differing in `status`. -/
theorem filter_and_semantics_witness :
    "SAT-001" ≠ "" ∧
    ((exRow3 ∈ resultSeq (some "SAT-001") (some TelemetryStatus.critical) exDB ↔
       exRow3 ∈ exDB.rows ∧ exRow3.satelliteId = "SAT-001" ∧
         exRow3.status = TelemetryStatus.critical) ∧
     (exRow3 ∈ resultSeq (some "SAT-001") none exDB ↔
       exRow3 ∈ exDB.rows ∧ exRow3.satelliteId = "SAT-001") ∧
     (exRow3 ∈ resultSeq none (some TelemetryStatus.critical) exDB ↔
       exRow3 ∈ exDB.rows ∧ exRow3.status = TelemetryStatus.critical) ∧
     (exRow3 ∈ resultSeq none none exDB ↔ exRow3 ∈ exDB.rows)) :=
  ⟨by decide,
    filter_and_semantics "SAT-001" TelemetryStatus.critical exDB exRow3
      (by decide)⟩


/-! ### Query engine: ordering and tie determinism -/

theorem filter_orderedInsert_of_ts_eq (t : Int) (a : Row)
    (ha : a.timestamp = t) :
    ∀ l : List Row,
      (List.orderedInsert tsDesc a l).filter (fun r => r.timestamp == t) =
        a :: l.filter (fun r => r.timestamp == t) := by
  intro l
  induction l with
  | nil => simp [ha]
  | cons b l ih =>
    by_cases h : tsDesc a b
    · simp only [List.orderedInsert, if_pos h]
      simp [List.filter_cons, ha]
    · have hb : ¬ b.timestamp = t := by
        unfold tsDesc at h
        have := not_le.mp h
        omega
      simp only [List.orderedInsert, if_neg h]
      simp [List.filter_cons, hb, ih]

theorem filter_orderedInsert_of_ts_ne (t : Int) (a : Row)
    (ha : ¬ a.timestamp = t) :
    ∀ l : List Row,
      (List.orderedInsert tsDesc a l).filter (fun r => r.timestamp == t) =
        l.filter (fun r => r.timestamp == t) := by
  intro l
  induction l with
  | nil => simp [ha]
  | cons b l ih =>
    by_cases h : tsDesc a b
    · simp only [List.orderedInsert, if_pos h]
      simp [List.filter_cons, ha]
    · simp only [List.orderedInsert, if_neg h]
      simp [List.filter_cons, ih]

theorem filter_insertionSort_ts (t : Int) :
    ∀ l : List Row,
      (List.insertionSort tsDesc l).filter (fun r => r.timestamp == t) =
        l.filter (fun r => r.timestamp == t) := by
  intro l
  induction l with
  | nil => rfl
  | cons a l ih =>
    by_cases ha : a.timestamp = t
    · simp only [List.insertionSort]
      rw [filter_orderedInsert_of_ts_eq t a ha, ih, List.filter_cons]
      simp [ha]
    · simp only [List.insertionSort]
      rw [filter_orderedInsert_of_ts_ne t a ha, ih, List.filter_cons]
      simp [ha]

/-- **C4.** The result sequence of `GET /telemetry` is ordered by `timestamp`
descending for every filter combination, it is a permutation of the matching
rows (with no filters, of all rows), and records with equal timestamps appear
exactly in insertion order — a fixed deterministic tiebreak, so repeated
identical queries against unchanged data return the identical sequence. -/
theorem list_order_sorted_deterministic (sid : Option String)
    (st : Option TelemetryStatus) (db : DB) (t : Int) :
    (resultSeq sid st db).Pairwise (fun a b => b.timestamp ≤ a.timestamp) ∧
    (resultSeq sid st db).Perm (applyFilters sid st db.rows) ∧
    (resultSeq sid st db).filter (fun r => r.timestamp == t) =
      (applyFilters sid st db.rows).filter (fun r => r.timestamp == t) ∧
    (resultSeq none none db).Perm db.rows := by
  refine ⟨List.sorted_insertionSort tsDesc _, List.perm_insertionSort tsDesc _,
    filter_insertionSort_ts t _, ?_⟩
  have h := List.perm_insertionSort tsDesc (applyFilters none none db.rows)
  simpa [applyFilters, strTruthy] using h


/-! ### Not-found and deletion semantics -/

theorem delete_telemetry_fst_error_iff (id : Nat) (db : DB) :
    (delete_telemetry id db).1 = Except.error 404 ↔
      ∀ r ∈ db.rows, r.id ≠ id := by
  unfold delete_telemetry
  dsimp only
  by_cases h : db.rows.countP (fun r => r.id == id) = 0
  · rw [if_pos (by simpa using h)]
    simp only [true_iff]
    intro r hr
    have := List.countP_eq_zero.mp h r hr
    simpa using this
  · rw [if_neg (by simpa using h)]
    simp only [reduceCtorEq, false_iff, not_forall]
    obtain ⟨a, ha, hpa⟩ := List.countP_pos_iff.mp (Nat.pos_of_ne_zero h)
    exact ⟨a, ha, not_not_intro (by simpa using hpa)⟩

theorem length_filter_ne_add_countP (id : Nat) (rows : List Row) :
    (rows.filter (fun r => r.id != id)).length +
      rows.countP (fun r => r.id == id) = rows.length := by
  induction rows with
  | nil => rfl
  | cons a l ih =>
    by_cases h : a.id = id <;>
      simp [List.filter_cons, List.countP_cons, h] <;> omega

theorem countP_id_le_one (db : DB) (hwf : db.wf) (id : Nat) :
    db.rows.countP (fun r => r.id == id) ≤ 1 := by
  have h := List.nodup_iff_count_le_one.mp hwf id
  rw [List.count_eq_countP, List.countP_map] at h
  simpa [Function.comp] using h

/-- **C8.** `GET /telemetry/{id}` and `DELETE /telemetry/{id}` answer 404
exactly when no record with the id exists; a successful delete returns the
deleted id and removes exactly one row (the table has unique primary keys);
and a `GET` of the id right after its `DELETE` answers 404 — deletion is
durable and immediate. -/
theorem notfound_and_delete_semantics (id : Nat) (db : DB)
    (resp : DeleteResponse) (hwf : db.wf) :
    (get_telemetry id db = Except.error 404 ↔ ∀ r ∈ db.rows, r.id ≠ id) ∧
    ((delete_telemetry id db).1 = Except.error 404 ↔
      ∀ r ∈ db.rows, r.id ≠ id) ∧
    ((delete_telemetry id db).1 = Except.ok resp →
      resp.id = id ∧
      (delete_telemetry id db).2.rows.length + 1 = db.rows.length) ∧
    get_telemetry id (delete_telemetry id db).2 = Except.error 404 := by
  refine ⟨get_telemetry_error_iff id db, delete_telemetry_fst_error_iff id db,
    ?_, ?_⟩
  · intro hok
    have hc0 : db.rows.countP (fun r => r.id == id) ≠ 0 := by
      intro h0
      unfold delete_telemetry at hok
      dsimp only at hok
      rw [if_pos (by simpa using h0)] at hok
      simp at hok
    have hc1 : db.rows.countP (fun r => r.id == id) = 1 :=
      le_antisymm (countP_id_le_one db hwf id) (Nat.one_le_iff_ne_zero.mpr hc0)
    constructor
    · unfold delete_telemetry at hok
      dsimp only at hok
      rw [if_neg (by simpa using hc0)] at hok
      have h2 := Except.ok.inj hok
      rw [← h2]
    · rw [delete_telemetry_snd]
      have hfl := length_filter_ne_add_countP id db.rows
      rw [hc1] at hfl
      simpa using hfl
  · rw [delete_telemetry_snd, get_telemetry_error_iff]
    intro r hr
    have := List.of_mem_filter hr
    simpa using this

/-- **C8 witness.** Instantiated at a one-row table whose single id is
deleted. -/
theorem notfound_and_delete_semantics_witness :
    DB.wf ⟨[exRow1]⟩ ∧
    ((get_telemetry 1 ⟨[exRow1]⟩ = Except.error 404 ↔
       ∀ r ∈ (⟨[exRow1]⟩ : DB).rows, r.id ≠ 1) ∧
     ((delete_telemetry 1 ⟨[exRow1]⟩).1 = Except.error 404 ↔
       ∀ r ∈ (⟨[exRow1]⟩ : DB).rows, r.id ≠ 1) ∧
     ((delete_telemetry 1 ⟨[exRow1]⟩).1 =
        Except.ok ⟨1, "Telemetry record deleted successfully"⟩ →
       (DeleteResponse.mk 1 "Telemetry record deleted successfully").id = 1 ∧
       (delete_telemetry 1 ⟨[exRow1]⟩).2.rows.length + 1 =
         (⟨[exRow1]⟩ : DB).rows.length) ∧
     get_telemetry 1 (delete_telemetry 1 ⟨[exRow1]⟩).2 =
       Except.error 404) := by
  have hwf : DB.wf ⟨[exRow1]⟩ := by
    unfold DB.wf
    decide
  exact ⟨hwf,
    notfound_and_delete_semantics 1 ⟨[exRow1]⟩
      ⟨1, "Telemetry record deleted successfully"⟩ hwf⟩


/-! ### Pagination layer -/

theorem slice_subset_take (l : List Row) (a s : Nat) :
    (l.drop a).take s ⊆ l.take (a + s) := by
  rw [List.take_drop]
  exact List.drop_subset _ _

theorem drop_subset_drop (l : List Row) {a b : Nat} (h : a ≤ b) :
    l.drop b ⊆ l.drop a := by
  have hb : l.drop b = (l.drop a).drop (b - a) := by
    rw [List.drop_drop]
    congr 1
    omega
  rw [hb]
  exact List.drop_subset _ _

theorem slices_disjoint (l : List Row) (hl : l.Nodup) (a b s s2 : Nat)
    (h : a + s ≤ b) :
    List.Disjoint ((l.drop a).take s) ((l.drop b).take s2) := by
  intro x hx hy
  have hx2 : x ∈ l.take (a + s) := slice_subset_take l a s hx
  have hy2 : x ∈ l.drop (a + s) :=
    drop_subset_drop l h (List.take_subset _ _ hy)
  exact List.disjoint_take_drop hl le_rfl hx2 hy2

theorem applyFilters_nodup (sid : Option String)
    (st : Option TelemetryStatus) (rows : List Row) (h : rows.Nodup) :
    (applyFilters sid st rows).Nodup := by
  unfold applyFilters
  split_ifs <;> first | exact h.filter _ | exact h

theorem resultSeq_nodup (sid : Option String) (st : Option TelemetryStatus)
    (db : DB) (h : db.rows.Nodup) : (resultSeq sid st db).Nodup :=
  (List.perm_insertionSort tsDesc _).symm.nodup
    (applyFilters_nodup sid st db.rows h)

/-- **C2.** Pagination over the ordered, filtered result sequence: `items` is
exactly the slice `[(p-1)*s, p*s)` of the sequence, so it has length at most
`s`; `total` is the length of the whole sequence, independent of `p` and `s`;
`page` and `size` are echoed back; a page starting beyond the end of the
sequence yields an empty `items` list (no error); and for a duplicate-free
table two distinct pages are disjoint. -/
theorem list_pagination_correct (sid : Option String)
    (st : Option TelemetryStatus) (p s q : Nat) (db : DB)
    (hp : 1 ≤ p) (hq : 1 ≤ q) (_hs : 1 ≤ s) (_hsmax : s ≤ 100) :
    (list_satellites sid st ⟨p, s⟩ db).items =
      ((resultSeq sid st db).drop ((p - 1) * s)).take s ∧
    (list_satellites sid st ⟨p, s⟩ db).items.length ≤ s ∧
    (list_satellites sid st ⟨p, s⟩ db).total = (resultSeq sid st db).length ∧
    (list_satellites sid st ⟨p, s⟩ db).page = p ∧
    (list_satellites sid st ⟨p, s⟩ db).size = s ∧
    ((resultSeq sid st db).length ≤ (p - 1) * s →
      (list_satellites sid st ⟨p, s⟩ db).items = []) ∧
    (db.rows.Nodup → q ≠ p →
      List.Disjoint (list_satellites sid st ⟨p, s⟩ db).items
        (list_satellites sid st ⟨q, s⟩ db).items) := by
  refine ⟨rfl, ?_, rfl, rfl, rfl, ?_, ?_⟩
  · show (((resultSeq sid st db).drop ((p - 1) * s)).take s).length ≤ s
    rw [List.length_take]
    exact min_le_left _ _
  · intro h
    show ((resultSeq sid st db).drop ((p - 1) * s)).take s = []
    rw [List.drop_eq_nil_of_le h]
    exact List.take_nil
  · intro hnd hne
    have hseq := resultSeq_nodup sid st db hnd
    have key : ∀ m n : Nat, 1 ≤ m → m < n →
        List.Disjoint (((resultSeq sid st db).drop ((m - 1) * s)).take s)
          (((resultSeq sid st db).drop ((n - 1) * s)).take s) := by
      intro m n hm hmn
      apply slices_disjoint _ hseq
      have h1 : (m - 1) * s + s = ((m - 1) + 1) * s := by
        rw [Nat.succ_mul]
      have h2 : ((m - 1) + 1) * s ≤ (n - 1) * s :=
        Nat.mul_le_mul_right s (by omega)
      omega
    rcases Nat.lt_or_ge p q with hlt | hge
    · exact key p q hp hlt
    · exact List.disjoint_symm (key q p hq (by omega))

/-- **C2 witness.** Instantiated on a three-row table with `size = 2`,
pages 1 and 2. -/
theorem list_pagination_correct_witness :
    (1 : Nat) ≤ 1 ∧ (1 : Nat) ≤ 2 ∧ (1 : Nat) ≤ 2 ∧ (2 : Nat) ≤ 100 ∧
    ((list_satellites none none ⟨1, 2⟩ exDB).items =
      ((resultSeq none none exDB).drop ((1 - 1) * 2)).take 2 ∧
    (list_satellites none none ⟨1, 2⟩ exDB).items.length ≤ 2 ∧
    (list_satellites none none ⟨1, 2⟩ exDB).total =
      (resultSeq none none exDB).length ∧
    (list_satellites none none ⟨1, 2⟩ exDB).page = 1 ∧
    (list_satellites none none ⟨1, 2⟩ exDB).size = 2 ∧
    ((resultSeq none none exDB).length ≤ (1 - 1) * 2 →
      (list_satellites none none ⟨1, 2⟩ exDB).items = []) ∧
    (exDB.rows.Nodup → 2 ≠ 1 →
      List.Disjoint (list_satellites none none ⟨1, 2⟩ exDB).items
        (list_satellites none none ⟨2, 2⟩ exDB).items)) :=
  ⟨le_refl 1, by omega, by omega, by omega,
    list_pagination_correct none none 1 2 2 exDB (le_refl 1) (by omega)
      (by omega) (by omega)⟩

end Telemetry
